import Mathlib

/-!
Shallow embedding of the nettlesoup TFTP message codec (src/msg.rs) and the
session record (src/conn.rs), together with theorems settling claims about
the specification.

Bytes are modelled as `List Nat` (each element is a byte value, below 256 for
real inputs). Rust `u16` arithmetic is modelled on `Nat` with explicit
`% 65536` where overflow matters. A Rust path that hits an out-of-bounds
`Vec` index (a runtime abort of the process) is modelled with the
distinguished result `DResult.crash`; indexing inside the scanning loops is
done through `List.get?` so that an out-of-range access is visible as `none`.
-/

namespace Nettlesoup

/-- The ten variants of `ParseError` in src/msg.rs. -/
inductive ParseErr where
  | TooShort
  | TooLong
  | InvalidOpcode
  | NoFilename
  | InvalidFilename
  | NoMode
  | InvalidMode
  | InvalidErrorCode
  | NoErrorMessage
  | InvalidErrorMessage
deriving DecidableEq

/-- Result of a decode: a message, a parse error, or a runtime abort caused
by an out-of-bounds index (Rust terminates the process there, so no value of
either other kind is produced). -/
inductive DResult (α : Type) where
  | ok : α → DResult α
  | err : ParseErr → DResult α
  | crash : DResult α
deriving DecidableEq

/-- `MessageType` in src/msg.rs. -/
inductive MessageType where
  | ReadRequest
  | WriteRequest
  | Data
  | Acknowledgement
  | Error
deriving DecidableEq

/-- `MessageType::to_opcode`. -/
def MessageType.to_opcode : MessageType → Nat
  | .ReadRequest => 1
  | .WriteRequest => 2
  | .Data => 3
  | .Acknowledgement => 4
  | .Error => 5

/-- `MessageType::from_opcode`: the Rust match on the literals 1..5 with a
catch-all returning `None`, written as an if-chain. -/
def MessageType.from_opcode (opcode : Nat) : Option MessageType :=
  if opcode = 1 then some .ReadRequest
  else if opcode = 2 then some .WriteRequest
  else if opcode = 3 then some .Data
  else if opcode = 4 then some .Acknowledgement
  else if opcode = 5 then some .Error
  else none

/-- `ReadWriteRequestMessageMode` in src/msg.rs. -/
inductive ReadWriteRequestMessageMode where
  | NetAscii
  | Octet
  | Mail
deriving DecidableEq

/-- Byte values of a list of (ASCII) characters; used to model the Rust
`String` contents byte-for-byte. -/
def charBytes (s : List Char) : List Nat := s.map Char.toNat

/-- `ReadWriteRequestMessageMode::to_string`, as the byte list of the
lowercase mode word. -/
def ReadWriteRequestMessageMode.to_string : ReadWriteRequestMessageMode → List Nat
  | .NetAscii => charBytes ['n', 'e', 't', 'a', 's', 'c', 'i', 'i']
  | .Octet => charBytes ['o', 'c', 't', 'e', 't']
  | .Mail => charBytes ['m', 'a', 'i', 'l']

/-- `ReadWriteRequestMessageMode::from_string`: the Rust match accepts
exactly the lowercase, uppercase and capitalized form of each mode word. -/
def ReadWriteRequestMessageMode.from_string (mode_string : List Nat) :
    Option ReadWriteRequestMessageMode :=
  if mode_string = charBytes ['n', 'e', 't', 'a', 's', 'c', 'i', 'i'] ∨
      mode_string = charBytes ['N', 'E', 'T', 'A', 'S', 'C', 'I', 'I'] ∨
      mode_string = charBytes ['N', 'e', 't', 'A', 's', 'c', 'i', 'i'] then
    some .NetAscii
  else if mode_string = charBytes ['o', 'c', 't', 'e', 't'] ∨
      mode_string = charBytes ['O', 'C', 'T', 'E', 'T'] ∨
      mode_string = charBytes ['O', 'c', 't', 'e', 't'] then
    some .Octet
  else if mode_string = charBytes ['m', 'a', 'i', 'l'] ∨
      mode_string = charBytes ['M', 'A', 'I', 'L'] ∨
      mode_string = charBytes ['M', 'a', 'i', 'l'] then
    some .Mail
  else none

/-- Big-endian byte pair of a 16-bit value (`u16::to_be_bytes`). -/
def be16 (n : Nat) : List Nat := [n / 256 % 256, n % 256]

/-- The 16-bit big-endian value of the first two bytes of a buffer:
`((bytes[0] as u16) << 8) | bytes[1]`. Every decoder reads it only after its
minimum-length check, so the two indices are in bounds and `getD` is exact. -/
def opcode16 (bytes : List Nat) : Nat := bytes.getD 0 0 * 256 + bytes.getD 1 0

/-- Outcome of the Rust byte-scanning while-loop used for null-terminated
fields: `done c acc` is normal exit (current byte is null) with final index
`c` and the accumulated pushed bytes `acc`; `outOfLoop acc` is the in-loop
bounds-check branch (`c` reached the bound before a null was found);
`crash` is an out-of-bounds index. -/
inductive ScanResult where
  | done : Nat → List Nat → ScanResult
  | outOfLoop : List Nat → ScanResult
  | crash : ScanResult
deriving DecidableEq

/-- One Rust scanning loop, with the in-loop check `c >= bound` encoded by
the `fuel` argument: the wrapper `scanLoop` passes `fuel = bound - c`, and
the loop body keeps the invariant `fuel = bound - c`, so `fuel = 0` exactly
when `c >= bound`. Body order matches the Rust loop: test the current byte
for null, then the bounds check, then increment `c` and index `bytes[c]`
(a miss is `crash`), then push the byte read. -/
def scanGo (bytes : List Nat) : Nat → Nat → Nat → List Nat → ScanResult
  | _, c, 0, acc => .done c acc
  | 0, _, _, acc => .outOfLoop acc
  | fuel + 1, c, _, acc =>
    match bytes.get? (c + 1) with
    | none => .crash
    | some b => scanGo bytes fuel (c + 1) b (acc ++ [b])

/-- The Rust loop `while curr_char != null { if c >= bound { exit }; c += 1;
curr_char = bytes[c]; acc.push(curr_char) }` starting at index `c` with
current byte `curr`. -/
def scanLoop (bytes : List Nat) (bound c curr : Nat) (acc : List Nat) : ScanResult :=
  scanGo bytes (bound - c) c curr acc

/-- `ReadRequestMessage` in src/msg.rs (the filename `String` as its bytes). -/
structure ReadRequestMessage where
  msg_type : MessageType
  filename : List Nat
  mode : ReadWriteRequestMessageMode
deriving DecidableEq

/-- `ReadRequestMessage::new`. -/
def ReadRequestMessage.new (filename : List Nat)
    (mode : ReadWriteRequestMessageMode) : ReadRequestMessage :=
  { msg_type := .ReadRequest, filename := filename, mode := mode }

/-- `ReadRequestMessage::to_bytes`: opcode, filename bytes, null, mode word
(with no trailing terminator). -/
def ReadRequestMessage.to_bytes (m : ReadRequestMessage) : List Nat :=
  be16 m.msg_type.to_opcode ++ m.filename ++ [0] ++ m.mode.to_string

/-- `ReadRequestMessage::from_bytes`, line for line: length check, opcode
parse and match, filename scan starting at `c = 1` with current byte
`bytes[1]`, the post-loop `c >= len` check, the conditional re-read of
`bytes[c+1]`, the mode scan, the two `pop()` calls, the emptiness checks and
the mode-word lookup. -/
def ReadRequestMessage.from_bytes (bytes : List Nat) : DResult ReadRequestMessage :=
  if bytes.length < 5 then .err .TooShort
  else
    match MessageType.from_opcode (opcode16 bytes) with
    | none => .err .InvalidOpcode
    | some msg_type =>
      if msg_type ≠ MessageType.ReadRequest then .err .InvalidOpcode
      else
        match scanLoop bytes bytes.length 1 (bytes.getD 1 0) [] with
        | .crash => .crash
        | .outOfLoop _ => .err .InvalidFilename
        | .done c fname =>
          if bytes.length ≤ c then .err .NoMode
          else
            let curr := if c + 1 < bytes.length then bytes.getD (c + 1) 0 else 0
            match scanLoop bytes bytes.length c curr [] with
            | .crash => .crash
            | .outOfLoop acc =>
              if acc.isEmpty then .err .NoMode else .err .InvalidMode
            | .done _ mraw =>
              let filename := fname.dropLast
              let mode_string := mraw.dropLast
              if filename.isEmpty then .err .NoFilename
              else if mode_string.isEmpty then .err .NoMode
              else
                match ReadWriteRequestMessageMode.from_string mode_string with
                | none => .err .InvalidMode
                | some mode => .ok (ReadRequestMessage.new filename mode)

/-- `WriteRequestMessage` in src/msg.rs; identical layout to the read
request apart from the tag. -/
structure WriteRequestMessage where
  msg_type : MessageType
  filename : List Nat
  mode : ReadWriteRequestMessageMode
deriving DecidableEq

/-- `WriteRequestMessage::new`. -/
def WriteRequestMessage.new (filename : List Nat)
    (mode : ReadWriteRequestMessageMode) : WriteRequestMessage :=
  { msg_type := .WriteRequest, filename := filename, mode := mode }

/-- `WriteRequestMessage::to_bytes`. -/
def WriteRequestMessage.to_bytes (m : WriteRequestMessage) : List Nat :=
  be16 m.msg_type.to_opcode ++ m.filename ++ [0] ++ m.mode.to_string

/-- `WriteRequestMessage::from_bytes`: same body as the read-request decoder
with the expected tag `WriteRequest`. -/
def WriteRequestMessage.from_bytes (bytes : List Nat) : DResult WriteRequestMessage :=
  if bytes.length < 5 then .err .TooShort
  else
    match MessageType.from_opcode (opcode16 bytes) with
    | none => .err .InvalidOpcode
    | some msg_type =>
      if msg_type ≠ MessageType.WriteRequest then .err .InvalidOpcode
      else
        match scanLoop bytes bytes.length 1 (bytes.getD 1 0) [] with
        | .crash => .crash
        | .outOfLoop _ => .err .InvalidFilename
        | .done c fname =>
          if bytes.length ≤ c then .err .NoMode
          else
            let curr := if c + 1 < bytes.length then bytes.getD (c + 1) 0 else 0
            match scanLoop bytes bytes.length c curr [] with
            | .crash => .crash
            | .outOfLoop acc =>
              if acc.isEmpty then .err .NoMode else .err .InvalidMode
            | .done _ mraw =>
              let filename := fname.dropLast
              let mode_string := mraw.dropLast
              if filename.isEmpty then .err .NoFilename
              else if mode_string.isEmpty then .err .NoMode
              else
                match ReadWriteRequestMessageMode.from_string mode_string with
                | none => .err .InvalidMode
                | some mode => .ok (WriteRequestMessage.new filename mode)

/-- `DataMessage` in src/msg.rs. -/
structure DataMessage where
  msg_type : MessageType
  block_num : Nat
  data : List Nat
deriving DecidableEq

/-- `DataMessage::new`. -/
def DataMessage.new (block_num : Nat) (data : List Nat) : DataMessage :=
  { msg_type := .Data, block_num := block_num, data := data }

/-- `DataMessage::to_bytes`: opcode, big-endian block number, payload
verbatim. -/
def DataMessage.to_bytes (m : DataMessage) : List Nat :=
  be16 m.msg_type.to_opcode ++ be16 m.block_num ++ m.data

/-- `DataMessage::from_bytes`: length window [5, 516], opcode checks, then
the block number from bytes 2..3 and the rest of the buffer as payload. -/
def DataMessage.from_bytes (bytes : List Nat) : DResult DataMessage :=
  if bytes.length < 5 then .err .TooShort
  else if bytes.length > 516 then .err .TooLong
  else
    match MessageType.from_opcode (opcode16 bytes) with
    | none => .err .InvalidOpcode
    | some msg_type =>
      if msg_type ≠ MessageType.Data then .err .InvalidOpcode
      else .ok (DataMessage.new (bytes.getD 2 0 * 256 + bytes.getD 3 0) (bytes.drop 4))

/-- `AcknowledgementMessage` in src/msg.rs. -/
structure AcknowledgementMessage where
  msg_type : MessageType
  block_num : Nat
deriving DecidableEq

/-- `AcknowledgementMessage::new`. -/
def AcknowledgementMessage.new (block_num : Nat) : AcknowledgementMessage :=
  { msg_type := .Acknowledgement, block_num := block_num }

/-- `AcknowledgementMessage::to_bytes`: opcode then big-endian block number,
exactly four bytes. -/
def AcknowledgementMessage.to_bytes (m : AcknowledgementMessage) : List Nat :=
  be16 m.msg_type.to_opcode ++ be16 m.block_num

/-- `AcknowledgementMessage::from_bytes`: length exactly 4, opcode checks,
then the block number. -/
def AcknowledgementMessage.from_bytes (bytes : List Nat) :
    DResult AcknowledgementMessage :=
  if bytes.length < 4 then .err .TooShort
  else if bytes.length > 4 then .err .TooLong
  else
    match MessageType.from_opcode (opcode16 bytes) with
    | none => .err .InvalidOpcode
    | some msg_type =>
      if msg_type ≠ MessageType.Acknowledgement then .err .InvalidOpcode
      else .ok (AcknowledgementMessage.new (bytes.getD 2 0 * 256 + bytes.getD 3 0))

/-- `ErrorMessage` in src/msg.rs (the message `String` as its bytes). -/
structure ErrorMessage where
  msg_type : MessageType
  code : Nat
  message : List Nat
deriving DecidableEq

/-- `ErrorMessage::new`. -/
def ErrorMessage.new (code : Nat) (message : List Nat) : ErrorMessage :=
  { msg_type := .Error, code := code, message := message }

/-- `ErrorMessage::to_bytes`: opcode, big-endian code, message bytes, one
null terminator. -/
def ErrorMessage.to_bytes (m : ErrorMessage) : List Nat :=
  be16 m.msg_type.to_opcode ++ be16 m.code ++ m.message ++ [0]

/-- `ErrorMessage::from_bytes`: length check, opcode checks, the code from
bytes 2..3, then the message scan starting at `c = 3` with current byte
`bytes[3]` (the low byte of the code), the early `c + 2 >= len` check, the
scan bounded by `len - 1`, the `pop()` and the emptiness check. -/
def ErrorMessage.from_bytes (bytes : List Nat) : DResult ErrorMessage :=
  if bytes.length < 5 then .err .TooShort
  else
    match MessageType.from_opcode (opcode16 bytes) with
    | none => .err .InvalidOpcode
    | some msg_type =>
      if msg_type ≠ MessageType.Error then .err .InvalidOpcode
      else
        let error_code := bytes.getD 2 0 * 256 + bytes.getD 3 0
        if 3 + 2 ≥ bytes.length then .err .NoErrorMessage
        else
          match scanLoop bytes (bytes.length - 1) 3 (bytes.getD 3 0) [] with
          | .crash => .crash
          | .outOfLoop _ => .err .InvalidErrorMessage
          | .done _ acc =>
            let error_msg := acc.dropLast
            if error_msg.isEmpty then .err .NoErrorMessage
            else .ok (ErrorMessage.new error_code error_msg)

/-- Modelled from the spec: `msg::AnyMessage`, the sum type over the five
message variants. It is referenced by src/conn.rs but its declaration is
missing from src/msg.rs; the spec data model defines the message as a sum
type over exactly the five variants. The session record stores it opaquely,
so only its existence matters to the record claims. -/
inductive AnyMessage where
  | readRequest : ReadRequestMessage → AnyMessage
  | writeRequest : WriteRequestMessage → AnyMessage
  | data : DataMessage → AnyMessage
  | acknowledgement : AcknowledgementMessage → AnyMessage
  | error : ErrorMessage → AnyMessage
deriving DecidableEq

/-- `Connection` in src/conn.rs: the session record. The `u16` fields are
modelled as `Nat`; `curr_seq` is the only one the code does arithmetic on,
and its increment is taken modulo 2^16. -/
structure Connection where
  local_tid : Nat
  remote_tid : Nat
  curr_seq : Nat
  last_msg : Option AnyMessage
deriving DecidableEq

/-- `Connection::new`: sequence 0, no last message. -/
def Connection.new (local_tid remote_tid : Nat) : Connection :=
  { local_tid := local_tid, remote_tid := remote_tid, curr_seq := 0,
    last_msg := none }

/-- `Connection::add_msg`: store the message as the last message and
increment the 16-bit sequence counter. -/
def Connection.add_msg (c : Connection) (message : AnyMessage) : Connection :=
  { c with last_msg := some message, curr_seq := (c.curr_seq + 1) % 65536 }

/-- Repeated recording of messages: a left fold of `add_msg`. -/
def addMsgs (c : Connection) (msgs : List AnyMessage) : Connection :=
  msgs.foldl Connection.add_msg c

/-- The read request of the concrete spec scenario: filename is the byte
text of the eight characters of the name, mode is octet. -/
def testReadRequest : ReadRequestMessage :=
  ReadRequestMessage.new (charBytes ['t', 'e', 's', 't', '.', 't', 'x', 't'])
    ReadWriteRequestMessageMode.Octet

/-- The nine wire texts accepted by the mode-word lookup. -/
def modeWords : List (List Nat) :=
  [charBytes ['n', 'e', 't', 'a', 's', 'c', 'i', 'i'],
   charBytes ['N', 'E', 'T', 'A', 'S', 'C', 'I', 'I'],
   charBytes ['N', 'e', 't', 'A', 's', 'c', 'i', 'i'],
   charBytes ['o', 'c', 't', 'e', 't'],
   charBytes ['O', 'C', 'T', 'E', 'T'],
   charBytes ['O', 'c', 't', 'e', 't'],
   charBytes ['m', 'a', 'i', 'l'],
   charBytes ['M', 'A', 'I', 'L'],
   charBytes ['M', 'a', 'i', 'l']]

/-- A sample message for the session-record claims. -/
def ackOne : AnyMessage := AnyMessage.acknowledgement (AcknowledgementMessage.new 1)

/-- A mapped opcode is exactly the opcode of the type it maps to. -/
lemma from_opcode_some {opcode : Nat} {t : MessageType}
    (h : MessageType.from_opcode opcode = some t) : opcode = t.to_opcode := by
  unfold MessageType.from_opcode at h
  split_ifs at h <;> simp at h <;> subst h <;>
    simp only [MessageType.to_opcode] <;> omega

/-- Read-request decode on a long-enough buffer whose opcode is not 1 is an
invalid-opcode error. -/
lemma rrq_wrong_opcode {b : List Nat} (h5 : 5 ≤ b.length)
    (hop : opcode16 b ≠ 1) :
    ReadRequestMessage.from_bytes b = .err .InvalidOpcode := by
  unfold ReadRequestMessage.from_bytes
  rw [if_neg (by omega)]
  rcases hfo : MessageType.from_opcode (opcode16 b) with _ | t
  · simp
  · have ht := from_opcode_some hfo
    cases t <;> simp_all [MessageType.to_opcode]

/-- Read-request decode succeeds only when the opcode is 1. -/
lemma rrq_ok_opcode {b : List Nat} {m : ReadRequestMessage}
    (h : ReadRequestMessage.from_bytes b = .ok m) : opcode16 b = 1 := by
  by_contra hop
  by_cases h5 : b.length < 5
  · unfold ReadRequestMessage.from_bytes at h
    rw [if_pos h5] at h
    simp at h
  · rw [rrq_wrong_opcode (by omega) hop] at h
    simp at h

/-- Write-request decode on a long-enough buffer whose opcode is not 2 is an
invalid-opcode error. -/
lemma wrq_wrong_opcode {b : List Nat} (h5 : 5 ≤ b.length)
    (hop : opcode16 b ≠ 2) :
    WriteRequestMessage.from_bytes b = .err .InvalidOpcode := by
  unfold WriteRequestMessage.from_bytes
  rw [if_neg (by omega)]
  rcases hfo : MessageType.from_opcode (opcode16 b) with _ | t
  · simp
  · have ht := from_opcode_some hfo
    cases t <;> simp_all [MessageType.to_opcode]

/-- Write-request decode succeeds only when the opcode is 2. -/
lemma wrq_ok_opcode {b : List Nat} {m : WriteRequestMessage}
    (h : WriteRequestMessage.from_bytes b = .ok m) : opcode16 b = 2 := by
  by_contra hop
  by_cases h5 : b.length < 5
  · unfold WriteRequestMessage.from_bytes at h
    rw [if_pos h5] at h
    simp at h
  · rw [wrq_wrong_opcode (by omega) hop] at h
    simp at h

/-- Data decode on a buffer inside the length window whose opcode is not 3
is an invalid-opcode error. -/
lemma data_wrong_opcode {b : List Nat} (h5 : 5 ≤ b.length)
    (h516 : b.length ≤ 516) (hop : opcode16 b ≠ 3) :
    DataMessage.from_bytes b = .err .InvalidOpcode := by
  unfold DataMessage.from_bytes
  rw [if_neg (by omega), if_neg (by omega)]
  rcases hfo : MessageType.from_opcode (opcode16 b) with _ | t
  · simp
  · have ht := from_opcode_some hfo
    cases t <;> simp_all [MessageType.to_opcode]

/-- Data decode succeeds only when the opcode is 3. -/
lemma data_ok_opcode {b : List Nat} {m : DataMessage}
    (h : DataMessage.from_bytes b = .ok m) : opcode16 b = 3 := by
  by_contra hop
  by_cases h5 : b.length < 5
  · unfold DataMessage.from_bytes at h
    rw [if_pos h5] at h
    simp at h
  by_cases h516 : b.length > 516
  · unfold DataMessage.from_bytes at h
    rw [if_neg h5, if_pos h516] at h
    simp at h
  · rw [data_wrong_opcode (by omega) (by omega) hop] at h
    simp at h

/-- Acknowledgement decode on a four-byte buffer whose opcode is not 4 is an
invalid-opcode error. -/
lemma ack_wrong_opcode {b : List Nat} (h4 : b.length = 4)
    (hop : opcode16 b ≠ 4) :
    AcknowledgementMessage.from_bytes b = .err .InvalidOpcode := by
  unfold AcknowledgementMessage.from_bytes
  rw [if_neg (by omega), if_neg (by omega)]
  rcases hfo : MessageType.from_opcode (opcode16 b) with _ | t
  · simp
  · have ht := from_opcode_some hfo
    cases t <;> simp_all [MessageType.to_opcode]

/-- Acknowledgement decode succeeds only when the opcode is 4. -/
lemma ack_ok_opcode {b : List Nat} {m : AcknowledgementMessage}
    (h : AcknowledgementMessage.from_bytes b = .ok m) : opcode16 b = 4 := by
  by_contra hop
  by_cases h4 : b.length < 4
  · unfold AcknowledgementMessage.from_bytes at h
    rw [if_pos h4] at h
    simp at h
  by_cases h4g : b.length > 4
  · unfold AcknowledgementMessage.from_bytes at h
    rw [if_neg h4, if_pos h4g] at h
    simp at h
  · rw [ack_wrong_opcode (by omega) hop] at h
    simp at h

/-- Error decode on a long-enough buffer whose opcode is not 5 is an
invalid-opcode error. -/
lemma err_wrong_opcode {b : List Nat} (h5 : 5 ≤ b.length)
    (hop : opcode16 b ≠ 5) :
    ErrorMessage.from_bytes b = .err .InvalidOpcode := by
  unfold ErrorMessage.from_bytes
  rw [if_neg (by omega)]
  rcases hfo : MessageType.from_opcode (opcode16 b) with _ | t
  · simp
  · have ht := from_opcode_some hfo
    cases t <;> simp_all [MessageType.to_opcode]

/-- Error decode succeeds only when the opcode is 5. -/
lemma err_ok_opcode {b : List Nat} {m : ErrorMessage}
    (h : ErrorMessage.from_bytes b = .ok m) : opcode16 b = 5 := by
  by_contra hop
  by_cases h5 : b.length < 5
  · unfold ErrorMessage.from_bytes at h
    rw [if_pos h5] at h
    simp at h
  · rw [err_wrong_opcode (by omega) hop] at h
    simp at h

/-- The sequence counter after a fold of recordings: starting below 2^16 it
ends at the start value plus the number of messages, modulo 2^16. -/
lemma addMsgs_curr_seq (msgs : List AnyMessage) :
    ∀ c : Connection, c.curr_seq < 65536 →
      (addMsgs c msgs).curr_seq = (c.curr_seq + msgs.length) % 65536 := by
  induction msgs with
  | nil =>
    intro c hc
    simp [addMsgs, Nat.mod_eq_of_lt hc]
  | cons m ms ih =>
    intro c hc
    have step : addMsgs c (m :: ms) = addMsgs (c.add_msg m) ms := by
      simp [addMsgs, List.foldl_cons]
    rw [step, ih (c.add_msg m) (by simp [Connection.add_msg]; omega)]
    simp only [Connection.add_msg, List.length_cons]
    omega

/-- The last message after a fold of recordings of a non-empty list is the
last element of the list. -/
lemma addMsgs_last_msg (msgs : List AnyMessage) :
    ∀ c : Connection, msgs ≠ [] → (addMsgs c msgs).last_msg = msgs.getLast? := by
  induction msgs with
  | nil => intro c h; exact absurd rfl h
  | cons m ms ih =>
    intro c _
    have step : addMsgs c (m :: ms) = addMsgs (c.add_msg m) ms := by
      simp [addMsgs, List.foldl_cons]
    rcases ms with _ | ⟨m2, ms2⟩
    · simp [step, addMsgs, Connection.add_msg]
    · rw [step, ih (c.add_msg m) (by simp), List.getLast?_cons_cons]

/-- Any wire text outside the nine accepted forms is rejected by the
mode-word lookup. -/
lemma from_string_reject {s : List Nat} (hs : s ∉ modeWords) :
    ReadWriteRequestMessageMode.from_string s = none := by
  simp only [modeWords, List.mem_cons, List.not_mem_nil, or_false, not_or] at hs
  unfold ReadWriteRequestMessageMode.from_string
  split_ifs with h1 h2 h3 <;> tauto

/-- C1: the round-trip claim fails on the code: encoding the well-formed read
request with filename bytes of the eight-character test name and octet mode
and then decoding the result does not return the message — the mode scan of
the decoder only stops at a null byte, the encoder writes no trailing null,
and the scan runs past the end of the buffer (an out-of-bounds index, which
aborts the process in Rust). -/
theorem C1_roundtrip_crashes :
    ReadRequestMessage.from_bytes (testReadRequest.to_bytes) = DResult.crash := by
  decide

/-- C2: the totality claim fails on the code: on the five-byte buffer with a
valid read-request opcode and no null byte in the remainder, the filename
scan passes its bounds check at index 4, increments to index 5 and reads one
byte past the end of the buffer — an out-of-bounds index, not a parse
error. -/
theorem C2_decode_crashes :
    ReadRequestMessage.from_bytes [0x00, 0x01, 0x61, 0x62, 0x63] = DResult.crash := by
  decide

/-- C3: of the concrete scenario, the encoding equals the sixteen listed
bytes and the buffer with opcode 9 is rejected as an invalid opcode, but
decoding the sixteen bytes does not return the original message: it runs
past the end of the buffer and aborts. -/
theorem C3_concrete_scenario :
    testReadRequest.to_bytes =
      [0x00, 0x01, 0x74, 0x65, 0x73, 0x74, 0x2E, 0x74, 0x78, 0x74, 0x00,
       0x6F, 0x63, 0x74, 0x65, 0x74] ∧
    ReadRequestMessage.from_bytes
      [0x00, 0x01, 0x74, 0x65, 0x73, 0x74, 0x2E, 0x74, 0x78, 0x74, 0x00,
       0x6F, 0x63, 0x74, 0x65, 0x74] = DResult.crash ∧
    ReadRequestMessage.from_bytes [0x00, 0x09, 0x00, 0x00, 0x00] =
      DResult.err ParseErr.InvalidOpcode := by
  refine ⟨by decide, by decide, by decide⟩

/-- C6: the string-termination claim fails on the code: a six-byte
read-request buffer with a correct opcode and no null byte after the opcode
does not produce an invalid-filename or no-mode error — the filename scan
reads index 6, one past the end of the buffer, and aborts. -/
theorem C6_unterminated_crashes :
    ReadRequestMessage.from_bytes [0x00, 0x01, 0x66, 0x69, 0x6C, 0x65] =
      DResult.crash := by
  decide

/-- C9: recording a message on a session record never fails (the mutator is
a total function of the embedding), changes only the sequence counter and
the stored last message, and leaves the two transfer identifiers exactly as
they were; the accessors are the projections of the record, so they return
the current field values and cannot modify the record. -/
theorem C9_add_msg_frame (c : Connection) (m : AnyMessage) :
    (c.add_msg m).local_tid = c.local_tid ∧
    (c.add_msg m).remote_tid = c.remote_tid ∧
    (c.add_msg m).last_msg = some m ∧
    (c.add_msg m).curr_seq = (c.curr_seq + 1) % 65536 :=
  ⟨rfl, rfl, rfl, rfl⟩

/-- C4: data decode rejects every buffer of at most 4 bytes as too short and
every buffer of at least 517 bytes as too long, and rejects no buffer of
length 5 through 516 on length; acknowledgement decode rejects at most 3
bytes as too short and at least 5 bytes as too long, and rejects no 4-byte
buffer on length; in particular the five-byte acknowledgement buffer of the
spec scenario is too long. -/
theorem C4_length_boundaries (b : List Nat) :
    (b.length ≤ 4 → DataMessage.from_bytes b = DResult.err ParseErr.TooShort) ∧
    (517 ≤ b.length → DataMessage.from_bytes b = DResult.err ParseErr.TooLong) ∧
    (5 ≤ b.length → b.length ≤ 516 →
      DataMessage.from_bytes b ≠ DResult.err ParseErr.TooShort ∧
      DataMessage.from_bytes b ≠ DResult.err ParseErr.TooLong) ∧
    (b.length ≤ 3 → AcknowledgementMessage.from_bytes b = DResult.err ParseErr.TooShort) ∧
    (5 ≤ b.length → AcknowledgementMessage.from_bytes b = DResult.err ParseErr.TooLong) ∧
    (b.length = 4 →
      AcknowledgementMessage.from_bytes b ≠ DResult.err ParseErr.TooShort ∧
      AcknowledgementMessage.from_bytes b ≠ DResult.err ParseErr.TooLong) ∧
    AcknowledgementMessage.from_bytes [0x00, 0x04, 0x00, 0x05, 0xFF] =
      DResult.err ParseErr.TooLong := by
  refine ⟨?_, ?_, ?_, ?_, ?_, ?_, by decide⟩
  · intro h
    unfold DataMessage.from_bytes
    rw [if_pos (by omega)]
  · intro h
    unfold DataMessage.from_bytes
    rw [if_neg (by omega), if_pos (by omega)]
  · intro h1 h2
    unfold DataMessage.from_bytes
    rw [if_neg (by omega), if_neg (by omega)]
    constructor <;>
      · rcases hfo : MessageType.from_opcode (opcode16 b) with _ | t
        · simp [hfo]
        · by_cases ht : t = MessageType.Data <;> simp [hfo, ht]
  · intro h
    unfold AcknowledgementMessage.from_bytes
    rw [if_pos (by omega)]
  · intro h
    unfold AcknowledgementMessage.from_bytes
    rw [if_neg (by omega), if_pos (by omega)]
  · intro h4
    unfold AcknowledgementMessage.from_bytes
    rw [if_neg (by omega), if_neg (by omega)]
    constructor <;>
      · rcases hfo : MessageType.from_opcode (opcode16 b) with _ | t
        · simp [hfo]
        · by_cases ht : t = MessageType.Acknowledgement <;> simp [hfo, ht]

/-- C4 witness at concrete buffers of each boundary length. -/
theorem C4_length_boundaries_witness :
    DataMessage.from_bytes (List.replicate 4 0) = DResult.err ParseErr.TooShort ∧
    DataMessage.from_bytes (List.replicate 517 0) = DResult.err ParseErr.TooLong ∧
    DataMessage.from_bytes (List.replicate 5 0) ≠ DResult.err ParseErr.TooShort ∧
    DataMessage.from_bytes (List.replicate 516 0) ≠ DResult.err ParseErr.TooLong ∧
    AcknowledgementMessage.from_bytes (List.replicate 3 0) = DResult.err ParseErr.TooShort ∧
    AcknowledgementMessage.from_bytes (List.replicate 5 0) = DResult.err ParseErr.TooLong ∧
    AcknowledgementMessage.from_bytes (List.replicate 4 0) ≠ DResult.err ParseErr.TooShort :=
  ⟨(C4_length_boundaries _).1 (by simp only [List.length_replicate]; omega),
   (C4_length_boundaries _).2.1 (by simp only [List.length_replicate]; omega),
   ((C4_length_boundaries _).2.2.1 (by simp only [List.length_replicate]; omega)
     (by simp only [List.length_replicate]; omega)).1,
   ((C4_length_boundaries _).2.2.1 (by simp only [List.length_replicate]; omega)
     (by simp only [List.length_replicate]; omega)).2,
   (C4_length_boundaries _).2.2.2.1 (by simp only [List.length_replicate]; omega),
   (C4_length_boundaries _).2.2.2.2.1 (by simp only [List.length_replicate]; omega),
   ((C4_length_boundaries _).2.2.2.2.2.1 (by simp only [List.length_replicate])).1⟩

/-- C5: for each of the five decoders, a buffer that passes that decoder's
length checks but whose first two bytes, read big-endian, differ from the
opcode of that variant is rejected as an invalid opcode, and a successful
decode forces the first two bytes to equal the opcode of the variant. -/
theorem C5_opcode_fidelity (b : List Nat) :
    (5 ≤ b.length → opcode16 b ≠ 1 →
      ReadRequestMessage.from_bytes b = DResult.err ParseErr.InvalidOpcode) ∧
    (∀ m, ReadRequestMessage.from_bytes b = DResult.ok m → opcode16 b = 1) ∧
    (5 ≤ b.length → opcode16 b ≠ 2 →
      WriteRequestMessage.from_bytes b = DResult.err ParseErr.InvalidOpcode) ∧
    (∀ m, WriteRequestMessage.from_bytes b = DResult.ok m → opcode16 b = 2) ∧
    (5 ≤ b.length → b.length ≤ 516 → opcode16 b ≠ 3 →
      DataMessage.from_bytes b = DResult.err ParseErr.InvalidOpcode) ∧
    (∀ m, DataMessage.from_bytes b = DResult.ok m → opcode16 b = 3) ∧
    (b.length = 4 → opcode16 b ≠ 4 →
      AcknowledgementMessage.from_bytes b = DResult.err ParseErr.InvalidOpcode) ∧
    (∀ m, AcknowledgementMessage.from_bytes b = DResult.ok m → opcode16 b = 4) ∧
    (5 ≤ b.length → opcode16 b ≠ 5 →
      ErrorMessage.from_bytes b = DResult.err ParseErr.InvalidOpcode) ∧
    (∀ m, ErrorMessage.from_bytes b = DResult.ok m → opcode16 b = 5) :=
  ⟨fun h5 hop => rrq_wrong_opcode h5 hop,
   fun _ h => rrq_ok_opcode h,
   fun h5 hop => wrq_wrong_opcode h5 hop,
   fun _ h => wrq_ok_opcode h,
   fun h5 h516 hop => data_wrong_opcode h5 h516 hop,
   fun _ h => data_ok_opcode h,
   fun h4 hop => ack_wrong_opcode h4 hop,
   fun _ h => ack_ok_opcode h,
   fun h5 hop => err_wrong_opcode h5 hop,
   fun _ h => err_ok_opcode h⟩

/-- C5 witness: a wrong two-byte prefix at each decoder on a concrete buffer
of accepted length, and one concrete successful decode whose prefix is the
opcode of the variant. -/
theorem C5_opcode_fidelity_witness :
    ReadRequestMessage.from_bytes [0x00, 0x02, 0, 0, 0] = DResult.err ParseErr.InvalidOpcode ∧
    WriteRequestMessage.from_bytes [0x00, 0x01, 0, 0, 0] = DResult.err ParseErr.InvalidOpcode ∧
    DataMessage.from_bytes [0x00, 0x04, 0, 0, 0] = DResult.err ParseErr.InvalidOpcode ∧
    AcknowledgementMessage.from_bytes [0x00, 0x03, 0, 0] = DResult.err ParseErr.InvalidOpcode ∧
    ErrorMessage.from_bytes [0x00, 0x01, 0, 0, 0] = DResult.err ParseErr.InvalidOpcode ∧
    opcode16 [0x00, 0x04, 0x00, 0x05] = 4 :=
  ⟨(C5_opcode_fidelity _).1 (by decide) (by decide),
   (C5_opcode_fidelity _).2.2.1 (by decide) (by decide),
   (C5_opcode_fidelity _).2.2.2.2.1 (by decide) (by decide) (by decide),
   (C5_opcode_fidelity _).2.2.2.2.2.2.1 (by decide) (by decide),
   (C5_opcode_fidelity _).2.2.2.2.2.2.2.2.1 (by decide) (by decide),
   (C5_opcode_fidelity [0x00, 0x04, 0x00, 0x05]).2.2.2.2.2.2.2.1
     (AcknowledgementMessage.new 5) (by decide)⟩

/-- C7: the mode-word lookup accepts exactly the lower, upper and
capitalized form of each of the three mode words, mapping each form to its
mode; every other wire text is rejected; and a read request whose mode field
is the word of six characters b-i-n-a-r-y fails with an invalid-mode
error. -/
theorem C7_mode_canonicalization :
    (ReadWriteRequestMessageMode.from_string
        (charBytes ['o', 'c', 't', 'e', 't']) = some .Octet ∧
     ReadWriteRequestMessageMode.from_string
        (charBytes ['O', 'C', 'T', 'E', 'T']) = some .Octet ∧
     ReadWriteRequestMessageMode.from_string
        (charBytes ['O', 'c', 't', 'e', 't']) = some .Octet ∧
     ReadWriteRequestMessageMode.from_string
        (charBytes ['n', 'e', 't', 'a', 's', 'c', 'i', 'i']) = some .NetAscii ∧
     ReadWriteRequestMessageMode.from_string
        (charBytes ['N', 'E', 'T', 'A', 'S', 'C', 'I', 'I']) = some .NetAscii ∧
     ReadWriteRequestMessageMode.from_string
        (charBytes ['N', 'e', 't', 'A', 's', 'c', 'i', 'i']) = some .NetAscii ∧
     ReadWriteRequestMessageMode.from_string
        (charBytes ['m', 'a', 'i', 'l']) = some .Mail ∧
     ReadWriteRequestMessageMode.from_string
        (charBytes ['M', 'A', 'I', 'L']) = some .Mail ∧
     ReadWriteRequestMessageMode.from_string
        (charBytes ['M', 'a', 'i', 'l']) = some .Mail) ∧
    (∀ s : List Nat, s ∉ modeWords →
      ReadWriteRequestMessageMode.from_string s = none) ∧
    ReadRequestMessage.from_bytes
      ([0x00, 0x01, 0x66, 0x00] ++ charBytes ['b', 'i', 'n', 'a', 'r', 'y'] ++ [0]) =
      DResult.err ParseErr.InvalidMode :=
  ⟨by decide, fun _ hs => from_string_reject hs, by decide⟩

/-- C7 witness: the rejection branch applied to the concrete word of six
characters b-i-n-a-r-y. -/
theorem C7_mode_canonicalization_witness :
    ReadWriteRequestMessageMode.from_string
      (charBytes ['b', 'i', 'n', 'a', 'r', 'y']) = none :=
  C7_mode_canonicalization.2.1 (charBytes ['b', 'i', 'n', 'a', 'r', 'y']) (by decide)

/-- C8 counterexample: the claim quantifies over every natural number of
recordings, but the sequence counter is a 16-bit field; after 65536
recordings on a fresh record the counter has wrapped to 0, so it does not
equal 65536. -/
theorem C8_counterexample :
    (addMsgs (Connection.new 0 0) (List.replicate 65536 ackOne)).curr_seq ≠ 65536 := by
  have h := addMsgs_curr_seq (List.replicate 65536 ackOne) (Connection.new 0 0)
    (by norm_num [Connection.new])
  rw [List.length_replicate] at h
  rw [h]
  norm_num [Connection.new]

/-- C8 amended: a fresh record has sequence 0 and no last message; after
recording a list of messages the sequence equals the number of messages
modulo 2^16 — hence equals it exactly whenever it is below 2^16 — and the
last message is the last element of the list when the list is
non-empty. -/
theorem C8_sequence_monotonicity_amended (lt rt : Nat) (msgs : List AnyMessage) :
    (Connection.new lt rt).curr_seq = 0 ∧
    (Connection.new lt rt).last_msg = none ∧
    (addMsgs (Connection.new lt rt) msgs).curr_seq = msgs.length % 65536 ∧
    (msgs.length < 65536 →
      (addMsgs (Connection.new lt rt) msgs).curr_seq = msgs.length) ∧
    (msgs ≠ [] →
      (addMsgs (Connection.new lt rt) msgs).last_msg = msgs.getLast?) := by
  refine ⟨rfl, rfl, ?_, ?_, fun h => addMsgs_last_msg msgs _ h⟩
  · rw [addMsgs_curr_seq _ _ (by simp [Connection.new])]
    simp [Connection.new]
  · intro hN
    rw [addMsgs_curr_seq _ _ (by simp [Connection.new])]
    simp only [Connection.new]
    omega

/-- C8 amended witness at one concrete recording on a fresh record. -/
theorem C8_sequence_monotonicity_amended_witness :
    (addMsgs (Connection.new 0 0) [ackOne]).curr_seq = ([ackOne] : List AnyMessage).length ∧
    (addMsgs (Connection.new 0 0) [ackOne]).last_msg = ([ackOne] : List AnyMessage).getLast? :=
  ⟨(C8_sequence_monotonicity_amended 0 0 [ackOne]).2.2.2.1 (by decide),
   (C8_sequence_monotonicity_amended 0 0 [ackOne]).2.2.2.2 (by decide)⟩

/-- C10: on every buffer that passes the length check of the error decoder and
whose opcode is 5, a zero byte at index 3 — the low byte of the 16-bit error
code — makes decoding fail with a no-error-message error whatever follows;
consequently a successful error decode (of a buffer of genuine bytes) never
yields a code that is a multiple of 256. -/
theorem C10_error_code_low_byte (b : List Nat) :
    (5 ≤ b.length → opcode16 b = 5 → b.getD 3 0 = 0 →
      ErrorMessage.from_bytes b = DResult.err ParseErr.NoErrorMessage) ∧
    (∀ em : ErrorMessage, (∀ x ∈ b, x < 256) →
      ErrorMessage.from_bytes b = DResult.ok em → em.code % 256 ≠ 0) := by
  have h55 : MessageType.from_opcode 5 = some MessageType.Error := by decide
  have key : 5 ≤ b.length → opcode16 b = 5 → b.getD 3 0 = 0 →
      ErrorMessage.from_bytes b = DResult.err ParseErr.NoErrorMessage := by
    intro h5 hop h3
    unfold ErrorMessage.from_bytes
    rw [if_neg (by omega), hop, h55]
    simp only [ne_eq, not_true_eq_false, if_false, reduceIte]
    by_cases hlen : 3 + 2 ≥ b.length
    · rw [if_pos hlen]
    · rw [if_neg hlen, h3]
      simp [scanLoop, scanGo]
  refine ⟨key, ?_⟩
  intro em h256 hok
  by_cases h5 : b.length < 5
  · unfold ErrorMessage.from_bytes at hok
    rw [if_pos h5] at hok
    simp at hok
  have hop : opcode16 b = 5 := err_ok_opcode hok
  by_cases h3 : b.getD 3 0 = 0
  · rw [key (by omega) hop h3] at hok
    simp at hok
  have hmem : b.getD 3 0 ∈ b := by
    rw [List.getD_eq_getElem b 0 (by omega)]
    exact List.getElem_mem _
  have hlt : b.getD 3 0 < 256 := h256 _ hmem
  have hcode : em.code = b.getD 2 0 * 256 + b.getD 3 0 := by
    unfold ErrorMessage.from_bytes at hok
    rw [if_neg (by omega), hop, h55] at hok
    simp only [ne_eq, not_true_eq_false, if_false, reduceIte] at hok
    split at hok
    · simp at hok
    · split at hok
      · simp at hok
      · simp at hok
      · split at hok
        · simp at hok
        · injection hok with h2
          rw [← h2]
          rfl
  rw [hcode]
  omega

/-- C10 witness: a concrete rejected buffer whose code low byte is zero, and
a concrete successfully decoded error message whose code is not a multiple
of 256. -/
theorem C10_error_code_low_byte_witness :
    ErrorMessage.from_bytes [0x00, 0x05, 0x01, 0x00, 0x41, 0x00] =
      DResult.err ParseErr.NoErrorMessage ∧
    (ErrorMessage.new 1 [0x41]).code % 256 ≠ 0 :=
  ⟨(C10_error_code_low_byte _).1 (by decide) (by decide) (by decide),
   (C10_error_code_low_byte [0x00, 0x05, 0x00, 0x01, 0x41, 0x00]).2
     (ErrorMessage.new 1 [0x41]) (by decide) (by decide)⟩

end Nettlesoup
